import Mathlib

/-!
# LiFuelGauge: register-level driver for the MAX17043 / MAX17044 fuel gauges

A shallow embedding of `LiFuelGauge.cpp` / `LiFuelGauge.h`.

* The two-wire bus (`Wire`) and the gauge behind it are one explicit state:
  the chip is a byte-addressed register file, a transmission whose first byte
  is a register address stores the following bytes at that address and the
  next ones, and a request returns the bytes found at the register pointer.
* Driver methods are state-passing functions `Wire → result × Wire`, written
  statement by statement after the C++ bodies.
* `uint8_t` values are naturals reduced modulo 256; `int` values (the type of
  every promoted operand of `~`, `&`, `|`, `+`) are 16-bit two's complement
  words kept as naturals below 65536, as on the AVR boards the library targets.
* `double` values are IEEE 754 binary64 numbers, every operation rounded to
  nearest, ties to even.
-/

namespace LiFuelGauge

/-! ## Register addresses (`LiFuelGauge.h`, lines 25-33) -/

def MAX1704X_ADDR : Nat := 0x36
def MAX1704X_VCELL_ADDR : Nat := 0x02
def MAX1704X_SOC_ADDR : Nat := 0x04
def MAX1704X_MODE_ADDR : Nat := 0x06
def MAX1704X_VERSION_ADDR : Nat := 0x08
def MAX1704X_CONFIG_ADDR : Nat := 0x0C
def MAX1704X_RCOMP_ADDR : Nat := 0x0C
def MAX1704X_ATHRD_ADDR : Nat := 0x0D
def MAX1704X_COMMAND_ADDR : Nat := 0xFE

/-! ## C integer arithmetic -/

/-- Conversion to `uint8_t`: the low eight bits. -/
def u8 (x : Nat) : Nat := x % 256

/-- Number of values of the C type `int` (16 bits). -/
def INT_RANGE : Nat := 65536

/-- The C operator `~` on an `int` operand: every one of the 16 bits flipped. -/
def cNot (x : Nat) : Nat := (x ^^^ 0xFFFF) % INT_RANGE

/-- The C operator `+` on `int` operands, as a 16-bit word. -/
def cAdd (x y : Nat) : Nat := (x + y) % INT_RANGE

/-! ## The bus and the chip behind it -/

/-- One completed bus operation, as seen on the wire. -/
inductive BusOp where
  | transmit (address : Nat) (bytes : List Nat) (sendStop : Bool) (status : Nat)
  | request (address : Nat) (quantity : Nat)
  deriving DecidableEq

/-- State of the `Wire` object together with the gauge it talks to.
`reg` is the chip's register file and `ptr` its register pointer; `txAddress`,
`txBuffer` and `rxBuffer` are the buffers of the bus library; `report k` is the
status the transport reports for the bus operation number `k`; `log` records
the completed bus operations, oldest first. -/
structure Wire where
  reg : Nat → Nat
  ptr : Nat
  txAddress : Nat
  txBuffer : List Nat
  rxBuffer : List Nat
  report : Nat → Nat
  log : List BusOp

/-- Register file after the bytes `data` are stored from address `a` upwards. -/
def store (reg : Nat → Nat) (a : Nat) : List Nat → Nat → Nat
  | [] => reg
  | b :: rest => store (fun x => if x = a then u8 b else reg x) (a + 1) rest

/-- The `n` bytes found from address `a` upwards. -/
def fetch (reg : Nat → Nat) (a : Nat) : Nat → List Nat
  | 0 => []
  | n + 1 => u8 (reg a) :: fetch reg (a + 1) n

/-- `Wire.beginTransmission(address)`: start queueing bytes for `address`. -/
def Wire.beginTransmission (w : Wire) (address : Nat) : Wire :=
  { w with txAddress := u8 address, txBuffer := [] }

/-- `Wire.write(data)`: queue one byte. -/
def Wire.write (w : Wire) (data : Nat) : Wire :=
  { w with txBuffer := w.txBuffer ++ [u8 data] }

/-- `Wire.endTransmission(sendStop)`: send the queued bytes and return the
status the transport reports. A gauge addressed at `MAX1704X_ADDR` takes the
first byte as register pointer and stores the remaining bytes from there. -/
def Wire.endTransmission (w : Wire) (sendStop : Bool) : Nat × Wire :=
  let status := u8 (w.report w.log.length)
  let w1 : Wire :=
    if w.txAddress = MAX1704X_ADDR then
      match w.txBuffer with
      | [] => w
      | a :: data => { w with reg := store w.reg a data, ptr := a + data.length }
    else w
  (status,
   { w1 with
     txBuffer := []
     log := w.log ++ [BusOp.transmit w.txAddress w.txBuffer sendStop status] })

/-- `Wire.requestFrom(address, quantity)`: read `quantity` bytes into the
receive buffer, starting at the chip's register pointer; returns how many
bytes arrived. -/
def Wire.requestFrom (w : Wire) (address quantity : Nat) : Nat × Wire :=
  let w1 : Wire :=
    if u8 address = MAX1704X_ADDR then
      { w with rxBuffer := fetch w.reg w.ptr quantity, ptr := w.ptr + quantity }
    else { w with rxBuffer := [] }
  (w1.rxBuffer.length,
   { w1 with log := w.log ++ [BusOp.request (u8 address) quantity] })

/-- `Wire.read()`: next received byte as an `int`, or `-1` (the word `0xFFFF`)
when the receive buffer is empty. -/
def Wire.read (w : Wire) : Nat × Wire :=
  match w.rxBuffer with
  | [] => (0xFFFF, w)
  | b :: rest => (b, { w with rxBuffer := rest })

/-! ## The driver (`LiFuelGauge.cpp`) -/

/-- `LiFuelGauge::getVersion` (lines 55-62). -/
def getVersion (w : Wire) : Nat × Wire :=
  let w := w.beginTransmission MAX1704X_ADDR
  let w := w.write MAX1704X_VERSION_ADDR
  let w := (w.endTransmission false).2
  let w := (w.requestFrom MAX1704X_ADDR 2).2
  let hi := w.read
  let lo := hi.2.read
  (cAdd ((hi.1 <<< 8) % INT_RANGE) lo.1, lo.2)

/-- `LiFuelGauge::getCompensation` (lines 66-73). -/
def getCompensation (w : Wire) : Nat × Wire :=
  let w := w.beginTransmission MAX1704X_ADDR
  let w := w.write MAX1704X_RCOMP_ADDR
  let w := (w.endTransmission false).2
  let w := (w.requestFrom MAX1704X_ADDR 1).2
  let r := w.read
  (u8 r.1, r.2)

/-- `LiFuelGauge::getStatus` (lines 83-90): the low byte of CONFIG. -/
def getStatus (w : Wire) : Nat × Wire :=
  let w := w.beginTransmission MAX1704X_ADDR
  let w := w.write MAX1704X_ATHRD_ADDR
  let w := (w.endTransmission false).2
  let w := (w.requestFrom MAX1704X_ADDR 1).2
  let r := w.read
  (u8 r.1, r.2)

/-- The decoding expression of `getAlertThreshold` (line 79):
`( ~status & 0x1F ) + 1`, returned as `uint8_t`. -/
def decodeThreshold (status : Nat) : Nat :=
  u8 (cAdd (cNot status &&& 0x1F) 1)

/-- `LiFuelGauge::getAlertThreshold` (lines 77-80). -/
def getAlertThreshold (w : Wire) : Nat × Wire :=
  let s := getStatus w
  (decodeThreshold s.1, s.2)

/-- `LiFuelGauge::setCompensation` (lines 95-104). -/
def setCompensation (w : Wire) (comp : Nat) : Nat × Wire :=
  let comp := u8 comp
  let s := getStatus w
  let status := s.1
  let w := s.2.beginTransmission MAX1704X_ADDR
  let w := w.write MAX1704X_CONFIG_ADDR
  let w := w.write comp
  let w := w.write status
  w.endTransmission true

/-- The clamping statements of `setAlertThreshold` (lines 111-112). -/
def clampThreshold (thrd : Nat) : Nat :=
  if thrd > 32 then 32 else if thrd < 1 then 1 else thrd

/-- The encoding statement of `setAlertThreshold` (line 113):
`thrd = ( ~thrd + 1 ) & 0x1F`, stored in a `uint8_t`. -/
def encodeThreshold (thrd : Nat) : Nat :=
  u8 (cAdd (cNot thrd) 1 &&& 0x1F)

/-- `LiFuelGauge::setAlertThreshold` (lines 109-128). -/
def setAlertThreshold (w : Wire) (thrd : Nat) : Nat × Wire :=
  let thrd := u8 thrd
  let thrd := clampThreshold thrd
  let thrd := encodeThreshold thrd
  let w := w.beginTransmission MAX1704X_ADDR
  let w := w.write MAX1704X_CONFIG_ADDR
  let w := (w.endTransmission false).2
  let w := (w.requestFrom MAX1704X_ADDR 2).2
  let r1 := w.read
  let comp := u8 r1.1
  let r2 := r1.2.read
  let sleepBit := u8 (r2.1 &&& 0x80)
  let w := r2.2.beginTransmission MAX1704X_ADDR
  let w := w.write MAX1704X_CONFIG_ADDR
  let w := w.write comp
  let w := w.write (sleepBit ||| thrd)
  w.endTransmission true

/-- `LiFuelGauge::clearAlertInterrupt` (lines 133-143). -/
def clearAlertInterrupt (w : Wire) : Nat × Wire :=
  let c := getCompensation w
  let comp := c.1
  let s := getStatus c.2
  let status := s.1
  let w := s.2.beginTransmission MAX1704X_ADDR
  let w := w.write MAX1704X_CONFIG_ADDR
  let w := w.write comp
  let w := w.write (0xDF &&& status)
  w.endTransmission true

/-- `LiFuelGauge::sleep` (lines 148-158). -/
def sleep (w : Wire) : Nat × Wire :=
  let c := getCompensation w
  let comp := c.1
  let t := getAlertThreshold c.2
  let thrd := t.1
  let w := t.2.beginTransmission MAX1704X_ADDR
  let w := w.write MAX1704X_CONFIG_ADDR
  let w := w.write comp
  let w := w.write (0x80 ||| thrd)
  w.endTransmission true

/-- `LiFuelGauge::wake` (lines 161-171). -/
def wake (w : Wire) : Nat × Wire :=
  let c := getCompensation w
  let comp := c.1
  let t := getAlertThreshold c.2
  let thrd := t.1
  let w := t.2.beginTransmission MAX1704X_ADDR
  let w := w.write MAX1704X_CONFIG_ADDR
  let w := w.write comp
  let w := w.write (0x7F &&& thrd)
  w.endTransmission true

/-- `LiFuelGauge::sleeping` (lines 175-178). -/
def sleeping (w : Wire) : Bool × Wire :=
  let s := getStatus w
  (decide (s.1 &&& 0x80 = 0x80), s.2)

/-- `LiFuelGauge::quickStart` (lines 183-190). -/
def quickStart (w : Wire) : Nat × Wire :=
  let w := w.beginTransmission MAX1704X_ADDR
  let w := w.write MAX1704X_MODE_ADDR
  let w := w.write 0x40
  let w := w.write 0x00
  w.endTransmission true

/-- `LiFuelGauge::reset` (lines 194-201). -/
def reset (w : Wire) : Nat × Wire :=
  let w := w.beginTransmission MAX1704X_ADDR
  let w := w.write MAX1704X_COMMAND_ADDR
  let w := w.write 0x54
  let w := w.write 0x00
  w.endTransmission true

/-! ## The measurement getters

`getVoltage` computes in `double`: a sign, a significand of `DBL_MANT_DIG` bits
and an exponent, every operation rounded to nearest, ties to even (exponent
range, infinities and NaN play no part for the values met here). `getSOC` is
written with exact rationals: on bytes each of its operations is exact in
`double`. The two `Wire.read()` operands of `+` are taken left to right, as the
driver intends (first byte received first). -/

/-- The value of a 16-bit `int` word as a signed integer. -/
def toSigned (x : Nat) : ℤ :=
  if x % INT_RANGE < 32768 then (x % INT_RANGE : ℤ) else (x % INT_RANGE : ℤ) - 65536

/-- The C operator `>>` on an `int` operand, sign bit shifted in. -/
def cShr (x n : Nat) : Nat :=
  if x % INT_RANGE < 32768 then (x % INT_RANGE) >>> n
  else 65535 - ((65535 - x % INT_RANGE) >>> n)

/-- The C operator `<<` on an `int` operand, as a 16-bit word. -/
def cShl (x n : Nat) : Nat := (x <<< n) % INT_RANGE

/-- The two supported ICs (`LiFuelGauge.h`, lines 40-44). -/
inductive gaugeType where
  | MAX17043
  | MAX17044
  deriving DecidableEq

/-- The enumerator values: `MAX17043 = 1`, `MAX17044 = 2`. -/
def gaugeType.value : gaugeType → Nat
  | gaugeType.MAX17043 => 1
  | gaugeType.MAX17044 => 2

/-- Significand width of `double` (IEEE 754 binary64). -/
def DBL_MANT_DIG : Nat := 53

/-- A finite `double`: the number `m * 2 ^ e`. -/
structure Dbl where
  m : Int
  e : Int
  deriving DecidableEq

/-- The rational number a `double` stands for. -/
def Dbl.toRat (d : Dbl) : ℚ := (d.m : ℚ) * (2 : ℚ) ^ d.e

/-- How many low bits of `a` do not fit in a significand of `DBL_MANT_DIG` bits:
the number of halvings that bring `a` below `2 ^ DBL_MANT_DIG`. -/
def excessBits : Nat → Nat → Nat
  | 0, _ => 0
  | fuel + 1, a => if a < 2 ^ DBL_MANT_DIG then 0 else excessBits fuel (a / 2) + 1

/-- Rounding of the natural number `a` to `DBL_MANT_DIG` significant bits, to
nearest, ties to even: the result `(q, s)` stands for `q * 2 ^ s`. -/
def roundNat (a : Nat) : Nat × Nat :=
  let s := excessBits a a
  if s = 0 then (a, 0)
  else
    let q := a >>> s
    let r := a % 2 ^ s
    let half := 2 ^ (s - 1)
    if r < half ∨ (r = half ∧ q % 2 = 0) then (q, s) else (q + 1, s)

/-- The `double` nearest to `m * 2 ^ e`, ties to even. -/
def roundDbl (m e : Int) : Dbl :=
  let r := roundNat m.natAbs
  { m := if m < 0 then -(r.1 : Int) else (r.1 : Int), e := e + (r.2 : Int) }

/-- Conversion of an `int` to `double`. -/
def Dbl.ofInt (z : Int) : Dbl := roundDbl z 0

/-- The C operator `*` on `double` operands: the exact product, rounded. -/
def dmul (a b : Dbl) : Dbl := roundDbl (a.m * b.m) (a.e + b.e)

/-- The literal `0.00125` as a `double`: `0x1.47ae147ae147bp-10`. -/
def DBL_0_00125 : Dbl := { m := 5764607523034235, e := -62 }

/-- `LiFuelGauge::getVoltage` (lines 34-41), for a driver built with `_ic = ic`. -/
def getVoltage (ic : gaugeType) (w : Wire) : Dbl × Wire :=
  let w := w.beginTransmission MAX1704X_ADDR
  let w := w.write MAX1704X_VCELL_ADDR
  let w := (w.endTransmission false).2
  let w := (w.requestFrom MAX1704X_ADDR 2).2
  let r1 := w.read
  let r2 := r1.2.read
  (dmul (dmul (Dbl.ofInt (toSigned (cAdd (cShl r1.1 4) (cShr r2.1 4)))) DBL_0_00125)
    (Dbl.ofInt (ic.value : ℤ)), r2.2)

/-- `LiFuelGauge::getSOC` (lines 45-52). -/
def getSOC (w : Wire) : ℚ × Wire :=
  let w := w.beginTransmission MAX1704X_ADDR
  let w := w.write MAX1704X_SOC_ADDR
  let w := (w.endTransmission false).2
  let w := (w.requestFrom MAX1704X_ADDR 2).2
  let r1 := w.read
  let r2 := r1.2.read
  ((toSigned r1.1 : ℚ) + (toSigned r2.1 : ℚ) / 256, r2.2)

/-! ## Observations on the CONFIG register -/

/-- The compensation byte held by the chip (CONFIG high byte, address 0x0C). -/
def compByte (w : Wire) : Nat := u8 (w.reg MAX1704X_RCOMP_ADDR)

/-- The status byte held by the chip (CONFIG low byte, address 0x0D). -/
def statusByte (w : Wire) : Nat := u8 (w.reg MAX1704X_ATHRD_ADDR)

/-- A bus at rest in front of a chip whose CONFIG register holds
compensation `c` and status `s`, every other register zero, and a transport
that reports success. -/
def chipWith (c s : Nat) : Wire :=
  { reg := fun x => if x = 0x0C then c else if x = 0x0D then s else 0
    ptr := 0
    txAddress := 0
    txBuffer := []
    rxBuffer := []
    report := fun _ => 0
    log := [] }

/-- The byte the chip holds at register address `a`. -/
def regByte (w : Wire) (a : Nat) : Nat := u8 (w.reg a)

/-- A bus at rest in front of a chip that holds the bytes `b0`, `b1` at the
register addresses `a`, `a + 1` and zero elsewhere, with a transport that
reports success. -/
def chipAt (a b0 b1 : Nat) : Wire :=
  { reg := fun x => if x = a then b0 else if x = a + 1 then b1 else 0
    ptr := 0
    txAddress := 0
    txBuffer := []
    rxBuffer := []
    report := fun _ => 0
    log := [] }

/-- A transmission that carries data bytes after the register address. -/
def isRegisterWrite : BusOp → Bool
  | BusOp.transmit _ bytes _ _ => decide (1 < bytes.length)
  | BusOp.request _ _ => false

/-- A read request. -/
def isRequest : BusOp → Bool
  | BusOp.transmit _ _ _ _ => false
  | BusOp.request _ _ => true

/-- The bus operations completed between state `w` and the later state `v`. -/
def opsSince (w v : Wire) : List BusOp := v.log.drop w.log.length

/-! ## Effect of each method on the register file -/

theorem statusByte_lt (w : Wire) : statusByte w < 256 :=
  Nat.mod_lt _ (by decide)

theorem compByte_lt (w : Wire) : compByte w < 256 :=
  Nat.mod_lt _ (by decide)

theorem u8_of_lt {x : Nat} (h : x < 256) : u8 x = x :=
  Nat.mod_eq_of_lt h

theorem getStatus_fst (w : Wire) : (getStatus w).1 = statusByte w := by
  simp [getStatus, statusByte, Wire.beginTransmission, Wire.write, Wire.endTransmission,
    Wire.requestFrom, Wire.read, store, fetch, u8, MAX1704X_ADDR, MAX1704X_ATHRD_ADDR]

theorem getStatus_reg (w : Wire) : (getStatus w).2.reg = w.reg := by
  simp [getStatus, Wire.beginTransmission, Wire.write, Wire.endTransmission,
    Wire.requestFrom, Wire.read, store, fetch, u8, MAX1704X_ADDR, MAX1704X_ATHRD_ADDR]

theorem getCompensation_fst (w : Wire) : (getCompensation w).1 = compByte w := by
  simp [getCompensation, compByte, Wire.beginTransmission, Wire.write, Wire.endTransmission,
    Wire.requestFrom, Wire.read, store, fetch, u8, MAX1704X_ADDR, MAX1704X_RCOMP_ADDR]

theorem getCompensation_reg (w : Wire) : (getCompensation w).2.reg = w.reg := by
  simp [getCompensation, Wire.beginTransmission, Wire.write, Wire.endTransmission,
    Wire.requestFrom, Wire.read, store, fetch, u8, MAX1704X_ADDR, MAX1704X_RCOMP_ADDR]

theorem getAlertThreshold_fst (w : Wire) :
    (getAlertThreshold w).1 = decodeThreshold (statusByte w) := by
  simp [getAlertThreshold, getStatus_fst]

theorem getAlertThreshold_reg (w : Wire) : (getAlertThreshold w).2.reg = w.reg := by
  simp [getAlertThreshold, getStatus_reg]

theorem sleeping_fst (w : Wire) :
    (sleeping w).1 = decide (statusByte w &&& 0x80 = 0x80) := by
  simp [sleeping, getStatus_fst]

theorem statusByte_congr {w v : Wire} (h : w.reg = v.reg) : statusByte w = statusByte v := by
  simp [statusByte, h]

theorem compByte_congr {w v : Wire} (h : w.reg = v.reg) : compByte w = compByte v := by
  simp [compByte, h]

theorem setCompensation_comp (w : Wire) (comp : Nat) :
    compByte (setCompensation w comp).2 = u8 comp := by
  simp [setCompensation, compByte, getStatus, Wire.beginTransmission, Wire.write,
    Wire.endTransmission, Wire.requestFrom, Wire.read, store, fetch, u8, MAX1704X_ADDR,
    MAX1704X_ATHRD_ADDR, MAX1704X_RCOMP_ADDR, MAX1704X_CONFIG_ADDR]

theorem setCompensation_status (w : Wire) (comp : Nat) :
    statusByte (setCompensation w comp).2 = statusByte w := by
  simp [setCompensation, statusByte, getStatus, Wire.beginTransmission, Wire.write,
    Wire.endTransmission, Wire.requestFrom, Wire.read, store, fetch, u8, MAX1704X_ADDR,
    MAX1704X_ATHRD_ADDR, MAX1704X_RCOMP_ADDR, MAX1704X_CONFIG_ADDR]

theorem setAlertThreshold_comp (w : Wire) (thrd : Nat) :
    compByte (setAlertThreshold w thrd).2 = compByte w := by
  simp [setAlertThreshold, compByte, Wire.beginTransmission, Wire.write,
    Wire.endTransmission, Wire.requestFrom, Wire.read, store, fetch, u8, MAX1704X_ADDR,
    MAX1704X_ATHRD_ADDR, MAX1704X_RCOMP_ADDR, MAX1704X_CONFIG_ADDR]

theorem setAlertThreshold_status (w : Wire) (thrd : Nat) :
    statusByte (setAlertThreshold w thrd).2 =
      u8 (u8 (statusByte w &&& 0x80) ||| encodeThreshold (clampThreshold (u8 thrd))) := by
  simp [setAlertThreshold, statusByte, Wire.beginTransmission, Wire.write,
    Wire.endTransmission, Wire.requestFrom, Wire.read, store, fetch, u8, MAX1704X_ADDR,
    MAX1704X_ATHRD_ADDR, MAX1704X_RCOMP_ADDR, MAX1704X_CONFIG_ADDR]

theorem clearAlertInterrupt_comp (w : Wire) :
    compByte (clearAlertInterrupt w).2 = compByte w := by
  simp [clearAlertInterrupt, compByte, getCompensation, getStatus, Wire.beginTransmission,
    Wire.write, Wire.endTransmission, Wire.requestFrom, Wire.read, store, fetch, u8,
    MAX1704X_ADDR, MAX1704X_ATHRD_ADDR, MAX1704X_RCOMP_ADDR, MAX1704X_CONFIG_ADDR]

theorem clearAlertInterrupt_status (w : Wire) :
    statusByte (clearAlertInterrupt w).2 = u8 (0xDF &&& statusByte w) := by
  simp [clearAlertInterrupt, statusByte, getCompensation, getStatus, Wire.beginTransmission,
    Wire.write, Wire.endTransmission, Wire.requestFrom, Wire.read, store, fetch, u8,
    MAX1704X_ADDR, MAX1704X_ATHRD_ADDR, MAX1704X_RCOMP_ADDR, MAX1704X_CONFIG_ADDR]

theorem sleep_comp (w : Wire) : compByte (sleep w).2 = compByte w := by
  simp [sleep, compByte, getAlertThreshold, getCompensation, getStatus,
    Wire.beginTransmission, Wire.write, Wire.endTransmission, Wire.requestFrom, Wire.read,
    store, fetch, u8, MAX1704X_ADDR, MAX1704X_ATHRD_ADDR, MAX1704X_RCOMP_ADDR,
    MAX1704X_CONFIG_ADDR]

theorem sleep_status (w : Wire) :
    statusByte (sleep w).2 = u8 (0x80 ||| decodeThreshold (statusByte w)) := by
  simp [sleep, statusByte, getAlertThreshold, getCompensation, getStatus,
    Wire.beginTransmission, Wire.write, Wire.endTransmission, Wire.requestFrom, Wire.read,
    store, fetch, u8, MAX1704X_ADDR, MAX1704X_ATHRD_ADDR, MAX1704X_RCOMP_ADDR,
    MAX1704X_CONFIG_ADDR]

theorem wake_comp (w : Wire) : compByte (wake w).2 = compByte w := by
  simp [wake, compByte, getAlertThreshold, getCompensation, getStatus,
    Wire.beginTransmission, Wire.write, Wire.endTransmission, Wire.requestFrom, Wire.read,
    store, fetch, u8, MAX1704X_ADDR, MAX1704X_ATHRD_ADDR, MAX1704X_RCOMP_ADDR,
    MAX1704X_CONFIG_ADDR]

theorem wake_status (w : Wire) :
    statusByte (wake w).2 = u8 (0x7F &&& decodeThreshold (statusByte w)) := by
  simp [wake, statusByte, getAlertThreshold, getCompensation, getStatus,
    Wire.beginTransmission, Wire.write, Wire.endTransmission, Wire.requestFrom, Wire.read,
    store, fetch, u8, MAX1704X_ADDR, MAX1704X_ATHRD_ADDR, MAX1704X_RCOMP_ADDR,
    MAX1704X_CONFIG_ADDR]

/-! ## Facts about single bytes, checked over the whole byte range -/

set_option maxRecDepth 100000

/-- The masked sleep bit of a status byte is 0 or 0x80, following bit 7. -/
theorem sleepMask_cases :
    ∀ s, s < 256 →
      (u8 (s &&& 0x80) = 0 ∧ s.testBit 7 = false) ∨
      (u8 (s &&& 0x80) = 0x80 ∧ s.testBit 7 = true) := by
  decide

/-- Decoding the byte `sleepBit | encode (clamp t)` gives the clamped value. -/
theorem decode_written_byte :
    ∀ b, b = 0 ∨ b = 0x80 → ∀ t, t < 256 →
      decodeThreshold (u8 (b ||| encodeThreshold (clampThreshold t))) = clampThreshold t := by
  rintro b (rfl | rfl) <;> decide

/-- Bits of the byte `sleepBit | encode (clamp t)`. -/
theorem bits_written_byte :
    ∀ b, b = 0 ∨ b = 0x80 → ∀ t, t < 256 →
      (u8 (b ||| encodeThreshold (clampThreshold t))).testBit 7 = decide (b = 0x80) ∧
      (u8 (b ||| encodeThreshold (clampThreshold t))).testBit 6 = false ∧
      (u8 (b ||| encodeThreshold (clampThreshold t))).testBit 5 = false ∧
      u8 (b ||| encodeThreshold (clampThreshold t)) &&& 0x1F
        = encodeThreshold (clampThreshold t) := by
  rintro b (rfl | rfl) <;> decide

/-- Bits of the byte `0x80 | decode s` written by `sleep`. -/
theorem bits_sleep_byte :
    ∀ s, s < 256 →
      u8 (0x80 ||| decodeThreshold s) &&& 0x80 = 0x80 ∧
      (u8 (0x80 ||| decodeThreshold s)).testBit 6 = false := by
  decide

/-- Bits of the byte `0x7F & decode s` written by `wake`. -/
theorem bits_wake_byte :
    ∀ s, s < 256 →
      u8 (0x7F &&& decodeThreshold s) &&& 0x80 = 0 ∧
      (u8 (0x7F &&& decodeThreshold s)).testBit 6 = false := by
  decide

/-- Bits of the byte `0xDF & s` written by `clearAlertInterrupt`. -/
theorem bits_clear_byte :
    ∀ s, s < 256 →
      u8 (0xDF &&& s) = s &&& 0xDF ∧
      (s &&& 0xDF).testBit 5 = false ∧
      (s &&& 0xDF).testBit 7 = s.testBit 7 ∧
      (s &&& 0xDF).testBit 6 = s.testBit 6 ∧
      (s &&& 0xDF) &&& 0x1F = s &&& 0x1F := by
  decide

/-! ## Alert threshold: encoding and read-back -/

/-- C1: for every threshold `t` with `1 ≤ t ≤ 32`, decoding (as `getAlertThreshold`
does, `(~e & 0x1F) + 1`) the field `e = (~t + 1) & 0x1F` that `setAlertThreshold`
encodes gives `t` back. -/
theorem threshold_round_trip (t : Nat) (h1 : 1 ≤ t) (h32 : t ≤ 32) :
    decodeThreshold (encodeThreshold t) = t := by
  interval_cases t <;> rfl

theorem threshold_round_trip_witness :
    1 ≤ 4 ∧ 4 ≤ 32 ∧ decodeThreshold (encodeThreshold 4) = 4 :=
  ⟨by decide, by decide, threshold_round_trip 4 (by decide) (by decide)⟩

/-- C2: from every state of the bus and chip, and for every `t` with
`1 ≤ t ≤ 32`, `setAlertThreshold(t)` followed by `getAlertThreshold()` returns `t`. -/
theorem set_then_get_threshold (w : Wire) (t : Nat) (h1 : 1 ≤ t) (h32 : t ≤ 32) :
    (getAlertThreshold (setAlertThreshold w t).2).1 = t := by
  have ht : t < 256 := by omega
  have hc : clampThreshold t = t := by
    unfold clampThreshold
    rw [if_neg (by omega), if_neg (by omega)]
  rw [getAlertThreshold_fst, setAlertThreshold_status, u8_of_lt ht]
  rcases sleepMask_cases _ (statusByte_lt w) with ⟨hb, _⟩ | ⟨hb, _⟩
  · rw [hb, decode_written_byte 0 (Or.inl rfl) t ht, hc]
  · rw [hb, decode_written_byte 0x80 (Or.inr rfl) t ht, hc]

theorem set_then_get_threshold_witness :
    1 ≤ 4 ∧ 4 ≤ 32 ∧
      (getAlertThreshold (setAlertThreshold (chipWith 0x97 0x9C) 4).2).1 = 4 :=
  ⟨by decide, by decide,
    set_then_get_threshold (chipWith 0x97 0x9C) 4 (by decide) (by decide)⟩

/-! ## Sleep and wake -/

/-- C3 (the code at the power-on CONFIG value 0x971C, threshold 4%): `sleep()`
writes status byte 0x84 and `wake()` writes 0x04, so the threshold field goes
from 28 to 4 and `getAlertThreshold()` goes from 4 to 28. -/
theorem sleep_wake_rewrite_threshold :
    (getAlertThreshold (chipWith 0x97 0x1C)).1 = 4 ∧
    statusByte (chipWith 0x97 0x1C) &&& 0x1F = 28 ∧
    statusByte (sleep (chipWith 0x97 0x1C)).2 = 0x84 ∧
    statusByte (sleep (chipWith 0x97 0x1C)).2 &&& 0x1F = 4 ∧
    (getAlertThreshold (sleep (chipWith 0x97 0x1C)).2).1 = 28 ∧
    statusByte (wake (chipWith 0x97 0x1C)).2 = 0x04 ∧
    statusByte (wake (chipWith 0x97 0x1C)).2 &&& 0x1F = 4 ∧
    (getAlertThreshold (wake (chipWith 0x97 0x1C)).2).1 = 28 := by
  decide

/-- C4: from every state of the bus and chip, `sleeping()` returns true right
after `sleep()` and false right after `wake()`. -/
theorem sleeping_after_sleep_and_wake (w : Wire) :
    (sleeping (sleep w).2).1 = true ∧ (sleeping (wake w).2).1 = false := by
  constructor
  · rw [sleeping_fst, sleep_status, (bits_sleep_byte _ (statusByte_lt w)).1]
    decide
  · rw [sleeping_fst, wake_status, (bits_wake_byte _ (statusByte_lt w)).1]
    decide

/-! ## The flag bits of the status byte -/

/-- C5 (the code on a chip whose alert has fired, status byte 0x3C: bit 5 set,
threshold 4%): `setCompensation` writes the status byte back whole and
`clearAlertInterrupt` changes bit 5 only, but `setAlertThreshold(4)` writes 0x1C,
`sleep()` 0x84 and `wake()` 0x04, each with bit 5 cleared; bit 6, when set
(status byte 0x5C), is cleared in the same way; and from status byte 0x00
`sleep()` writes 0xA0 and `wake()` 0x20, with bit 5 set. -/
theorem flag_bits_not_kept :
    (statusByte (chipWith 0x97 0x3C)).testBit 5 = true ∧
    statusByte (setCompensation (chipWith 0x97 0x3C) 0x97).2 = 0x3C ∧
    statusByte (clearAlertInterrupt (chipWith 0x97 0x7C)).2 = 0x5C ∧
    statusByte (setAlertThreshold (chipWith 0x97 0x3C) 4).2 = 0x1C ∧
    (statusByte (setAlertThreshold (chipWith 0x97 0x3C) 4).2).testBit 5 = false ∧
    statusByte (sleep (chipWith 0x97 0x3C)).2 = 0x84 ∧
    (statusByte (sleep (chipWith 0x97 0x3C)).2).testBit 5 = false ∧
    statusByte (wake (chipWith 0x97 0x3C)).2 = 0x04 ∧
    (statusByte (wake (chipWith 0x97 0x3C)).2).testBit 5 = false ∧
    (statusByte (chipWith 0x97 0x5C)).testBit 6 = true ∧
    statusByte (setAlertThreshold (chipWith 0x97 0x5C) 4).2 = 0x1C ∧
    statusByte (sleep (chipWith 0x97 0x5C)).2 = 0x84 ∧
    statusByte (wake (chipWith 0x97 0x5C)).2 = 0x04 ∧
    (statusByte (chipWith 0x97 0x00)).testBit 5 = false ∧
    statusByte (sleep (chipWith 0x97 0x00)).2 = 0xA0 ∧
    (statusByte (sleep (chipWith 0x97 0x00)).2).testBit 5 = true ∧
    statusByte (wake (chipWith 0x97 0x00)).2 = 0x20 ∧
    (statusByte (wake (chipWith 0x97 0x00)).2).testBit 5 = true := by
  decide

/-- C6: from every state with compensation `c` and status byte `s`, after
`clearAlertInterrupt()` the CONFIG register holds `(c, s & 0xDF)`: bit 5 is 0,
and bit 7, bit 6, the threshold bits 4..0 and the compensation byte are as
before. -/
theorem clearAlertInterrupt_clears_bit5_only (w : Wire) :
    compByte (clearAlertInterrupt w).2 = compByte w ∧
    statusByte (clearAlertInterrupt w).2 = statusByte w &&& 0xDF ∧
    (statusByte (clearAlertInterrupt w).2).testBit 5 = false ∧
    (statusByte (clearAlertInterrupt w).2).testBit 7 = (statusByte w).testBit 7 ∧
    (statusByte (clearAlertInterrupt w).2).testBit 6 = (statusByte w).testBit 6 ∧
    statusByte (clearAlertInterrupt w).2 &&& 0x1F = statusByte w &&& 0x1F := by
  have h := bits_clear_byte _ (statusByte_lt w)
  rw [clearAlertInterrupt_comp, clearAlertInterrupt_status, h.1]
  exact ⟨rfl, rfl, h.2.1, h.2.2.1, h.2.2.2.1, h.2.2.2.2⟩

/-! ## Field independence of the CONFIG writes -/

/-- C7: from every state and for every argument `t`, `setAlertThreshold(t)`
leaves the compensation byte unchanged (a following `getCompensation()` returns
what it returned before the call) and leaves bit 7 of the status byte, the
sleep bit, unchanged. -/
theorem setAlertThreshold_keeps_comp_and_sleep (w : Wire) (t : Nat) :
    compByte (setAlertThreshold w t).2 = compByte w ∧
    (getCompensation (setAlertThreshold w t).2).1 = (getCompensation w).1 ∧
    (statusByte (setAlertThreshold w t).2).testBit 7 = (statusByte w).testBit 7 := by
  refine ⟨setAlertThreshold_comp w t, ?_, ?_⟩
  · rw [getCompensation_fst, getCompensation_fst, setAlertThreshold_comp]
  · rw [setAlertThreshold_status]
    have ht : u8 t < 256 := Nat.mod_lt _ (by decide)
    rcases sleepMask_cases _ (statusByte_lt w) with ⟨hb, h7⟩ | ⟨hb, h7⟩
    · rw [hb, h7, (bits_written_byte 0 (Or.inl rfl) _ ht).1]
      decide
    · rw [hb, h7, (bits_written_byte 0x80 (Or.inr rfl) _ ht).1]
      decide

/-- C8: for every argument `t` (a byte) of `setAlertThreshold`, the threshold
field written is the encoding of 1 when `t < 1`, of 32 when `t > 32`, and of
`t` otherwise, and a following `getAlertThreshold()` returns that clamped
value: 1 after `setAlertThreshold(0)`, 32 after any `t` in 33..255. -/
theorem setAlertThreshold_clamps (w : Wire) (t : Nat) (ht : t < 256) :
    statusByte (setAlertThreshold w t).2 &&& 0x1F
      = encodeThreshold (if t < 1 then 1 else if 32 < t then 32 else t) ∧
    (getAlertThreshold (setAlertThreshold w t).2).1
      = (if t < 1 then 1 else if 32 < t then 32 else t) := by
  have hc : clampThreshold t = (if t < 1 then 1 else if 32 < t then 32 else t) := by
    unfold clampThreshold
    split_ifs <;> omega
  rw [getAlertThreshold_fst, setAlertThreshold_status, u8_of_lt ht, ← hc]
  rcases sleepMask_cases _ (statusByte_lt w) with ⟨hb, _⟩ | ⟨hb, _⟩
  · rw [hb]
    exact ⟨(bits_written_byte 0 (Or.inl rfl) t ht).2.2.2,
      decode_written_byte 0 (Or.inl rfl) t ht⟩
  · rw [hb]
    exact ⟨(bits_written_byte 0x80 (Or.inr rfl) t ht).2.2.2,
      decode_written_byte 0x80 (Or.inr rfl) t ht⟩

theorem setAlertThreshold_clamps_witness :
    (0 < 256 ∧ (getAlertThreshold (setAlertThreshold (chipWith 0x97 0x1C) 0).2).1 = 1) ∧
    (200 < 256 ∧ (getAlertThreshold (setAlertThreshold (chipWith 0x97 0x1C) 200).2).1 = 32) :=
  ⟨⟨by decide, (setAlertThreshold_clamps (chipWith 0x97 0x1C) 0 (by decide)).2⟩,
   ⟨by decide, (setAlertThreshold_clamps (chipWith 0x97 0x1C) 200 (by decide)).2⟩⟩

/-- C9: from every state with status byte `s` and for every byte `v`, after
`setCompensation(v)` the CONFIG register holds `(v, s)`: `getCompensation()`
returns `v`, and the sleep bit, the flag bits and the threshold bits of the
status byte are as before. -/
theorem setCompensation_writes_comp_only (w : Wire) (v : Nat) (hv : v < 256) :
    compByte (setCompensation w v).2 = v ∧
    statusByte (setCompensation w v).2 = statusByte w ∧
    (getCompensation (setCompensation w v).2).1 = v ∧
    (statusByte (setCompensation w v).2).testBit 7 = (statusByte w).testBit 7 ∧
    (statusByte (setCompensation w v).2).testBit 6 = (statusByte w).testBit 6 ∧
    (statusByte (setCompensation w v).2).testBit 5 = (statusByte w).testBit 5 ∧
    statusByte (setCompensation w v).2 &&& 0x1F = statusByte w &&& 0x1F := by
  rw [getCompensation_fst, setCompensation_comp, setCompensation_status, u8_of_lt hv]
  exact ⟨rfl, rfl, rfl, rfl, rfl, rfl, rfl⟩

theorem setCompensation_writes_comp_only_witness :
    0x5A < 256 ∧ compByte (setCompensation (chipWith 0x97 0x9C) 0x5A).2 = 0x5A ∧
      statusByte (setCompensation (chipWith 0x97 0x9C) 0x5A).2
        = statusByte (chipWith 0x97 0x9C) :=
  ⟨by decide,
    (setCompensation_writes_comp_only (chipWith 0x97 0x9C) 0x5A (by decide)).1,
    (setCompensation_writes_comp_only (chipWith 0x97 0x9C) 0x5A (by decide)).2.1⟩

/-- C10: from every state, the compensation byte held by the chip, and the
value `getCompensation()` returns, are the same after `sleep()` and after
`wake()` as before the call. -/
theorem compensation_across_sleep_wake (w : Wire) :
    compByte (sleep w).2 = compByte w ∧
    (getCompensation (sleep w).2).1 = (getCompensation w).1 ∧
    compByte (wake w).2 = compByte w ∧
    (getCompensation (wake w).2).1 = (getCompensation w).1 := by
  refine ⟨sleep_comp w, ?_, wake_comp w, ?_⟩
  · rw [getCompensation_fst, getCompensation_fst, sleep_comp]
  · rw [getCompensation_fst, getCompensation_fst, wake_comp]

/-! ## The threshold field as a number -/

/-- Decoding a status byte: 32 minus its low five bits, a value in 1..32. -/
theorem decode_field :
    ∀ s, s < 256 →
      decodeThreshold s = 32 - (s &&& 0x1F) ∧ 1 ≤ decodeThreshold s ∧
      decodeThreshold s ≤ 32 := by
  decide

/-- Decoding the byte `0x80 | decode s` that `sleep` writes. -/
theorem decode_sleep_byte :
    ∀ s, s < 256 →
      (decodeThreshold (u8 (0x80 ||| decodeThreshold s)) = decodeThreshold s ↔
        (decodeThreshold s = 16 ∨ decodeThreshold s = 32)) ∧
      decodeThreshold (u8 (0x80 ||| decodeThreshold s))
        = (if decodeThreshold s = 32 then 32 else 32 - decodeThreshold s) ∧
      u8 (0x80 ||| decodeThreshold s) &&& 0x1F = decodeThreshold s % 32 := by
  decide

/-- The byte `wake` writes when the status byte it reads is the one `sleep`
wrote over `s`. -/
theorem bits_sleep_wake_byte :
    ∀ s, s < 256 →
      u8 (0x7F &&& decodeThreshold (u8 (0x80 ||| decodeThreshold s))) &&& 0x1F
        = s &&& 0x1F ∧
      decodeThreshold (u8 (0x7F &&& decodeThreshold (u8 (0x80 ||| decodeThreshold s))))
        = decodeThreshold s ∧
      (u8 (0x7F &&& decodeThreshold (u8 (0x80 ||| decodeThreshold s)))).testBit 7 = false ∧
      u8 (0x7F &&& decodeThreshold (u8 (0x80 ||| decodeThreshold s))) &&& 0x80 = 0 := by
  decide

/-- C11: for every `t` in 1..32 the five-bit field `setAlertThreshold` writes is
`(32 - t) mod 32`; for every status byte, `getAlertThreshold` decodes the field
`r` in its low five bits as `32 - r`; raw field 0 decodes to 32 and raw field 31
to 1. -/
theorem threshold_encoding_reference (w : Wire) (t : Nat) (h1 : 1 ≤ t) (h32 : t ≤ 32) :
    encodeThreshold t = (32 - t) % 32 ∧
    statusByte (setAlertThreshold w t).2 &&& 0x1F = (32 - t) % 32 ∧
    (getAlertThreshold w).1 = 32 - (statusByte w &&& 0x1F) ∧
    decodeThreshold 0 = 32 ∧ decodeThreshold 31 = 1 := by
  have ht : t < 256 := by omega
  have hc : clampThreshold t = t := by
    unfold clampThreshold
    rw [if_neg (by omega), if_neg (by omega)]
  have he : encodeThreshold t = (32 - t) % 32 := by
    interval_cases t <;> rfl
  refine ⟨he, ?_, ?_, by decide, by decide⟩
  · rw [setAlertThreshold_status, u8_of_lt ht]
    rcases sleepMask_cases _ (statusByte_lt w) with ⟨hb, _⟩ | ⟨hb, _⟩
    · rw [hb, (bits_written_byte 0 (Or.inl rfl) t ht).2.2.2, hc, he]
    · rw [hb, (bits_written_byte 0x80 (Or.inr rfl) t ht).2.2.2, hc, he]
  · rw [getAlertThreshold_fst]
    exact (decode_field _ (statusByte_lt w)).1

theorem threshold_encoding_reference_witness :
    1 ≤ 4 ∧ 4 ≤ 32 ∧ encodeThreshold 4 = 28 ∧
      statusByte (setAlertThreshold (chipWith 0x97 0x9F) 4).2 &&& 0x1F = 28 :=
  ⟨by decide, by decide,
    (threshold_encoding_reference (chipWith 0x97 0x9F) 4 (by decide) (by decide)).1,
    (threshold_encoding_reference (chipWith 0x97 0x9F) 4 (by decide) (by decide)).2.1⟩

/-- C16: from every state, with `p` the threshold `getAlertThreshold()` reports
before, the threshold reported after `sleep()` is 32 when `p = 32` and `32 - p`
otherwise; it equals `p` exactly when `p` is 16 or 32 (`p` is always in 1..32). -/
theorem threshold_after_sleep (w : Wire) :
    ((getAlertThreshold (sleep w).2).1 = (getAlertThreshold w).1 ↔
      ((getAlertThreshold w).1 = 16 ∨ (getAlertThreshold w).1 = 32)) ∧
    (getAlertThreshold (sleep w).2).1
      = (if (getAlertThreshold w).1 = 32 then 32 else 32 - (getAlertThreshold w).1) ∧
    1 ≤ (getAlertThreshold w).1 ∧ (getAlertThreshold w).1 ≤ 32 ∧
    statusByte (sleep w).2 &&& 0x1F = (getAlertThreshold w).1 % 32 := by
  have hs := decode_sleep_byte _ (statusByte_lt w)
  have hd := decode_field _ (statusByte_lt w)
  rw [getAlertThreshold_fst, getAlertThreshold_fst, sleep_status]
  exact ⟨hs.1, hs.2.1, hd.2.1, hd.2.2, hs.2.2⟩

/-- C17: from every state, `sleep()` followed by `wake()` leaves the five-bit
threshold field of the status byte, the value of `getAlertThreshold()` and the
compensation byte as they were at the start, and the sleep bit is clear. -/
theorem sleep_then_wake_restores (w : Wire) :
    statusByte (wake (sleep w).2).2 &&& 0x1F = statusByte w &&& 0x1F ∧
    (getAlertThreshold (wake (sleep w).2).2).1 = (getAlertThreshold w).1 ∧
    compByte (wake (sleep w).2).2 = compByte w ∧
    (statusByte (wake (sleep w).2).2).testBit 7 = false ∧
    (sleeping (wake (sleep w).2).2).1 = false := by
  have h := bits_sleep_wake_byte _ (statusByte_lt w)
  rw [sleeping_fst, getAlertThreshold_fst, getAlertThreshold_fst, wake_comp, sleep_comp,
    wake_status, sleep_status]
  refine ⟨h.1, h.2.1, rfl, h.2.2.1, ?_⟩
  rw [h.2.2.2]
  decide

/-- C18: for every status byte, `getAlertThreshold()` returns a value in 1..32,
and two status bytes that agree on bits 4..0 decode to the same threshold. -/
theorem threshold_in_range_low_bits_only (w v : Wire)
    (h : statusByte w &&& 0x1F = statusByte v &&& 0x1F) :
    1 ≤ (getAlertThreshold w).1 ∧ (getAlertThreshold w).1 ≤ 32 ∧
    (getAlertThreshold w).1 = (getAlertThreshold v).1 := by
  have hw := decode_field _ (statusByte_lt w)
  have hv := decode_field _ (statusByte_lt v)
  rw [getAlertThreshold_fst, getAlertThreshold_fst]
  refine ⟨hw.2.1, hw.2.2, ?_⟩
  rw [hw.1, hv.1, h]

theorem threshold_in_range_low_bits_only_witness :
    statusByte (chipWith 0x97 0x1C) &&& 0x1F = statusByte (chipWith 0x00 0xFC) &&& 0x1F ∧
      (getAlertThreshold (chipWith 0x97 0x1C)).1
        = (getAlertThreshold (chipWith 0x00 0xFC)).1 :=
  ⟨by decide,
    (threshold_in_range_low_bits_only (chipWith 0x97 0x1C) (chipWith 0x00 0xFC)
      (by decide)).2.2⟩

/-! ## Measurement getters -/

theorem regByte_lt (w : Wire) (a : Nat) : regByte w a < 256 :=
  Nat.mod_lt _ (by decide)

theorem getVoltage_fst (ic : gaugeType) (w : Wire) :
    (getVoltage ic w).1
      = dmul (dmul (Dbl.ofInt (toSigned (cAdd (cShl (regByte w MAX1704X_VCELL_ADDR) 4)
          (cShr (regByte w (MAX1704X_VCELL_ADDR + 1)) 4)))) DBL_0_00125)
          (Dbl.ofInt (ic.value : ℤ)) := by
  simp [getVoltage, regByte, Wire.beginTransmission, Wire.write, Wire.endTransmission,
    Wire.requestFrom, Wire.read, store, fetch, u8, MAX1704X_ADDR, MAX1704X_VCELL_ADDR]

theorem getSOC_fst (w : Wire) :
    (getSOC w).1
      = (toSigned (regByte w MAX1704X_SOC_ADDR) : ℚ)
        + (toSigned (regByte w (MAX1704X_SOC_ADDR + 1)) : ℚ) / 256 := by
  simp [getSOC, regByte, Wire.beginTransmission, Wire.write, Wire.endTransmission,
    Wire.requestFrom, Wire.read, store, fetch, u8, MAX1704X_ADDR, MAX1704X_SOC_ADDR]

/-- A byte is a non-negative `int`. -/
theorem toSigned_byte {b : Nat} (hb : b < 256) : toSigned b = (b : ℤ) := by
  unfold toSigned INT_RANGE
  have h : b % 65536 = b := Nat.mod_eq_of_lt (by omega)
  rw [h, if_pos (by omega)]
  omega

/-- The 12-bit word assembled by `getVoltage` from two bytes: no overflow, and it
is the upper twelve bits of `256 * b0 + b1`. -/
theorem voltage_word {b0 b1 : Nat} (h0 : b0 < 256) (h1 : b1 < 256) :
    toSigned (cAdd (cShl b0 4) (cShr b1 4)) = (((b0 <<< 4) + (b1 >>> 4) : ℕ) : ℤ) ∧
    (b0 <<< 4) + (b1 >>> 4) = (256 * b0 + b1) / 16 ∧
    (b0 <<< 4) + (b1 >>> 4) ≤ 4095 := by
  have hl : b0 <<< 4 = b0 * 16 := by rw [Nat.shiftLeft_eq]
  have hr : b1 >>> 4 = b1 / 16 := by rw [Nat.shiftRight_eq_div_pow]
  have hm : b1 % 65536 = b1 := Nat.mod_eq_of_lt (by omega)
  have hs : cShr b1 4 = b1 / 16 := by
    unfold cShr INT_RANGE
    rw [hm, if_pos (by omega), hr]
  have hw : cAdd (cShl b0 4) (cShr b1 4) = b0 * 16 + b1 / 16 := by
    unfold cAdd cShl INT_RANGE
    rw [hs, hl]
    omega
  refine ⟨?_, ?_, ?_⟩
  · unfold toSigned INT_RANGE
    rw [hw, hl, hr]
    have h : (b0 * 16 + b1 / 16) % 65536 = b0 * 16 + b1 / 16 := Nat.mod_eq_of_lt (by omega)
    rw [h, if_pos (by omega)]
    omega
  · rw [hl, hr]; omega
  · rw [hl, hr]; omega

/-! ## Rounding to `double` -/

/-- The shift chosen by `excessBits` brackets `a` between two powers of two. -/
theorem excessBits_spec (fuel : Nat) : ∀ a, a ≤ fuel →
    a < 2 ^ (DBL_MANT_DIG + excessBits fuel a) ∧
    (excessBits fuel a ≠ 0 → 2 ^ (DBL_MANT_DIG - 1 + excessBits fuel a) ≤ a) := by
  induction fuel with
  | zero =>
    intro a ha
    have : a = 0 := by omega
    subst this
    simp [excessBits]
  | succ f ih =>
    intro a ha
    unfold excessBits
    split_ifs with h
    · exact ⟨by simpa using h, by simp⟩
    · have h2 : a / 2 ≤ f := by
        have : 0 < 2 ^ DBL_MANT_DIG := Nat.two_pow_pos _
        omega
      obtain ⟨i1, i2⟩ := ih (a / 2) h2
      constructor
      · rw [← Nat.add_assoc, pow_succ]
        omega
      · intro _
        by_cases hz : excessBits f (a / 2) = 0
        · rw [hz]
          simp only [Nat.add_zero, DBL_MANT_DIG] at *
          norm_num at h ⊢
          omega
        · have := i2 hz
          rw [← Nat.add_assoc, pow_succ]
          omega

/-- The two ways `roundNat` can round: down to `q` or up to `q + 1`. -/
theorem roundNat_cases (a : Nat) :
    (a < 2 ^ 53 ∧ roundNat a = (a, 0)) ∨
    (∃ s q r, s ≠ 0 ∧ 2 ^ 52 * 2 ^ s ≤ a ∧ a < 2 ^ 53 * 2 ^ s ∧ a = q * 2 ^ s + r ∧
      r < 2 ^ s ∧ 2 ^ s = 2 * 2 ^ (s - 1) ∧
      ((r ≤ 2 ^ (s - 1) ∧ roundNat a = (q, s)) ∨
       (2 ^ (s - 1) ≤ r ∧ roundNat a = (q + 1, s)))) := by
  obtain ⟨h1, h2⟩ := excessBits_spec a a (Nat.le_refl a)
  by_cases h : excessBits a a = 0
  · left
    rw [h] at h1
    exact ⟨by simpa [DBL_MANT_DIG] using h1, by simp [roundNat, h]⟩
  · right
    have h2 := h2 h
    refine ⟨excessBits a a, a / 2 ^ excessBits a a, a % 2 ^ excessBits a a, h, ?_, ?_, ?_,
      Nat.mod_lt _ (Nat.two_pow_pos _), ?_, ?_⟩
    · simpa [DBL_MANT_DIG, pow_add] using h2
    · simpa [DBL_MANT_DIG, pow_add] using h1
    · rw [Nat.mul_comm]; exact (Nat.div_add_mod a _).symm
    · conv_lhs => rw [← Nat.succ_pred_eq_of_pos (Nat.pos_of_ne_zero h)]
      rw [pow_succ, Nat.mul_comm]
      rfl
    · unfold roundNat
      simp only [h, if_false, Nat.shiftRight_eq_div_pow]
      split_ifs with hc
      · left
        refine ⟨?_, rfl⟩
        rcases hc with hc | ⟨hc, _⟩
        · exact Nat.le_of_lt hc
        · exact Nat.le_of_eq hc
      · right
        refine ⟨?_, rfl⟩
        by_contra hlt
        exact hc (Or.inl (Nat.lt_of_not_le hlt))

/-- Rounding changes a natural number by at most one part in `2 ^ 53`. -/
theorem roundNat_error (a : Nat) :
    2 ^ 53 * ((roundNat a).1 * 2 ^ (roundNat a).2) ≤ (2 ^ 53 + 1) * a ∧
    (2 ^ 53 - 1) * a ≤ 2 ^ 53 * ((roundNat a).1 * 2 ^ (roundNat a).2) := by
  rcases roundNat_cases a with ⟨_, h⟩ | ⟨s, q, r, _, hlo, _, ha, hr, hP, h⟩
  · rw [h]
    simp only [pow_zero, Nat.mul_one]
    omega
  · rcases h with ⟨hd, h⟩ | ⟨hu, h⟩
    · rw [h]
      simp only
      generalize 2 ^ s = P at *
      generalize 2 ^ (s - 1) = H at *
      generalize q * P = Q at *
      omega
    · rw [h]
      simp only [Nat.add_mul, Nat.one_mul]
      generalize 2 ^ s = P at *
      generalize 2 ^ (s - 1) = H at *
      generalize q * P = Q at *
      omega

/-- The significand produced by rounding has at most 53 bits, or is `2 ^ 53`. -/
theorem roundNat_mantissa (a : Nat) : (roundNat a).1 ≤ 2 ^ 53 := by
  rcases roundNat_cases a with ⟨ha, h⟩ | ⟨s, q, r, _, _, hhi, ha, _, _, h⟩
  · rw [h]; exact Nat.le_of_lt ha
  · have hq : q < 2 ^ 53 := by
      have : q * 2 ^ s < 2 ^ 53 * 2 ^ s := by omega
      exact Nat.lt_of_mul_lt_mul_right this
    rcases h with ⟨_, h⟩ | ⟨_, h⟩ <;> rw [h] <;> simp only <;> omega

/-- Rounding is exact on numbers up to `2 ^ 54` that are even from `2 ^ 53` on. -/
theorem roundNat_exact (a : Nat) (ha : a ≤ 2 ^ 54) (hev : 2 ^ 53 ≤ a → a % 2 = 0) :
    (roundNat a).1 * 2 ^ (roundNat a).2 = a := by
  rcases roundNat_cases a with ⟨_, h⟩ | ⟨s, q, r, hs, hlo, _, hq, hr, hP, h⟩
  · rw [h]; simp
  · have hs2 : s ≤ 2 := by
      by_contra hc
      have h3 : 3 ≤ s := by omega
      have : 2 ^ 3 ≤ 2 ^ s := Nat.pow_le_pow_right (by decide) h3
      omega
    have hpos : 0 < 2 ^ (s - 1) := Nat.two_pow_pos _
    have hev2 : a % 2 = 0 := hev (by
      have : 2 ^ 1 ≤ 2 ^ s := Nat.pow_le_pow_right (by decide) (by omega)
      omega)
    have hr0 : r = 0 := by
      interval_cases s
      · omega
      · norm_num at hq hr hlo
        omega
      · norm_num at hq hr hlo
        omega
    rcases h with ⟨_, h⟩ | ⟨hu, h⟩
    · rw [h]; simp only; omega
    · omega

theorem roundNat_small {a : Nat} (ha : a < 2 ^ 53) : roundNat a = (a, 0) := by
  rcases roundNat_cases a with ⟨_, h⟩ | ⟨s, _, _, hs, hlo, _⟩
  · exact h
  · have : 2 ^ 1 ≤ 2 ^ s := Nat.pow_le_pow_right (by decide) (by omega)
    omega

theorem roundDbl_natCast (a : Nat) (e : Int) :
    roundDbl (a : ℤ) e = { m := ((roundNat a).1 : ℤ), e := e + ((roundNat a).2 : ℤ) } := by
  unfold roundDbl
  simp

theorem ofInt_small {n : Nat} (hn : n < 2 ^ 53) : Dbl.ofInt (n : ℤ) = { m := (n : ℤ), e := 0 } := by
  unfold Dbl.ofInt
  rw [roundDbl_natCast, roundNat_small hn]
  simp

/-- The literal `0.00125` is represented by the `double` nearest to `1 / 800`:
a 53-bit significand and an error below half a unit in the last place. -/
theorem DBL_0_00125_nearest :
    2 ^ 52 ≤ DBL_0_00125.m ∧ DBL_0_00125.m < 2 ^ 53 ∧
    |DBL_0_00125.toRat - 0.00125| ≤ 1 / 2 ^ 63 := by
  refine ⟨by decide, by decide, ?_⟩
  norm_num [Dbl.toRat, DBL_0_00125, abs_le]

/-- Value of the `double` product `(n * 0.00125) * k` for a 12-bit `n` and a
scale `k` of 1 or 2: the second multiplication is exact. -/
theorem voltage_value (n k : Nat) (hn : n ≤ 4095) (hk : k = 1 ∨ k = 2) :
    (dmul (dmul (Dbl.ofInt (n : ℤ)) DBL_0_00125) (Dbl.ofInt (k : ℤ))).toRat
      = (k : ℚ) * (((roundNat (n * 5764607523034235)).1
          * 2 ^ (roundNat (n * 5764607523034235)).2 : ℕ) : ℚ) / 2 ^ 62 := by
  have hn53 : n < 2 ^ 53 := by omega
  have hk53 : k < 2 ^ 53 := by rcases hk with rfl | rfl <;> decide
  have hq := roundNat_mantissa (n * 5764607523034235)
  have hex : (roundNat ((roundNat (n * 5764607523034235)).1 * k)).1
      * 2 ^ (roundNat ((roundNat (n * 5764607523034235)).1 * k)).2
      = (roundNat (n * 5764607523034235)).1 * k := by
    apply roundNat_exact
    · rcases hk with rfl | rfl <;> omega
    · intro h
      rcases hk with rfl | rfl <;> omega
  have hp : dmul (Dbl.ofInt (n : ℤ)) DBL_0_00125
      = { m := ((roundNat (n * 5764607523034235)).1 : ℤ),
          e := -62 + ((roundNat (n * 5764607523034235)).2 : ℤ) } := by
    rw [ofInt_small hn53]
    unfold dmul DBL_0_00125
    have : ((n : ℤ) * 5764607523034235) = ((n * 5764607523034235 : ℕ) : ℤ) := by push_cast; rfl
    simp only [this, roundDbl_natCast]
    simp
  rw [hp, ofInt_small hk53]
  unfold dmul
  have hc : (((roundNat (n * 5764607523034235)).1 : ℤ) * (k : ℤ))
      = (((roundNat (n * 5764607523034235)).1 * k : ℕ) : ℤ) := by push_cast; rfl
  simp only [hc, roundDbl_natCast, Dbl.toRat]
  have hexq : (((roundNat ((roundNat (n * 5764607523034235)).1 * k)).1 : ℚ))
      * 2 ^ (roundNat ((roundNat (n * 5764607523034235)).1 * k)).2
      = ((roundNat (n * 5764607523034235)).1 : ℚ) * k := by
    exact_mod_cast hex
  rw [Int.cast_natCast, add_zero, zpow_add₀ (by norm_num : (2 : ℚ) ≠ 0),
    zpow_add₀ (by norm_num : (2 : ℚ) ≠ 0), zpow_natCast, zpow_natCast]
  have h62 : (2 : ℚ) ^ (-62 : ℤ) = 1 / 2 ^ 62 := by
    rw [zpow_neg, one_div]
    norm_cast
  rw [h62]
  push_cast
  generalize ((roundNat ((roundNat (n * 5764607523034235)).1 * k)).1 : ℚ) = A at *
  generalize ((2 : ℚ) ^ (roundNat ((roundNat (n * 5764607523034235)).1 * k)).2) = B at *
  calc A * (1 / 2 ^ 62 * 2 ^ (roundNat (n * 5764607523034235)).2 * B)
      = (A * B) * 2 ^ (roundNat (n * 5764607523034235)).2 / 2 ^ 62 := by ring
    _ = _ := by rw [hexq]; ring

/-- Distance between the `double` product `(n * 0.00125) * k` and the exact
`n * 0.00125 * k`, for a 12-bit `n` and a scale `k` of 1 or 2. -/
theorem voltage_error (n k : Nat) (hn : n ≤ 4095) (hk : k = 1 ∨ k = 2) :
    |(dmul (dmul (Dbl.ofInt (n : ℤ)) DBL_0_00125) (Dbl.ofInt (k : ℤ))).toRat
      - (n : ℚ) * 0.00125 * (k : ℚ)| ≤ (k : ℚ) / 2 ^ 50 := by
  rw [voltage_value n k hn hk]
  have he := roundNat_error (n * 5764607523034235)
  generalize (roundNat (n * 5764607523034235)).1
    * 2 ^ (roundNat (n * 5764607523034235)).2 = V at he
  norm_num at he
  have h1 : (9007199254740992 : ℚ) * V ≤ 9007199254740993 * ((n : ℚ) * 5764607523034235) := by
    exact_mod_cast he.1
  have h2 : (9007199254740991 : ℚ) * ((n : ℚ) * 5764607523034235) ≤ 9007199254740992 * V := by
    exact_mod_cast he.2
  have hn0 : (0 : ℚ) ≤ n := Nat.cast_nonneg _
  have hn1 : (n : ℚ) ≤ 4095 := by exact_mod_cast hn
  rw [abs_le]
  rcases hk with rfl | rfl <;> norm_num <;> constructor <;> linarith

/-- C12, as stated, fails at VCELL bytes `[0x9C, 0x00]` on the MAX17043: the
`double` that `getVoltage()` returns is `7025615418697974 * 2 ^ (-51)`, that is
`0x1.8f5c28f5c28f6p+1`, which is neither 3.12 nor the exact product
`((0x9C << 4) + (0x00 >> 4)) * 0.00125 * 1`. -/
theorem voltage_not_exact :
    (getVoltage gaugeType.MAX17043 (chipAt MAX1704X_VCELL_ADDR 0x9C 0x00)).1
      = { m := 7025615418697974, e := -51 } ∧
    (getVoltage gaugeType.MAX17043 (chipAt MAX1704X_VCELL_ADDR 0x9C 0x00)).1.toRat ≠ 3.12 ∧
    (getVoltage gaugeType.MAX17043 (chipAt MAX1704X_VCELL_ADDR 0x9C 0x00)).1.toRat
      ≠ (((0x9C <<< 4) + (0x00 >>> 4) : ℕ) : ℚ) * 0.00125 * 1 := by
  have h : (getVoltage gaugeType.MAX17043 (chipAt MAX1704X_VCELL_ADDR 0x9C 0x00)).1
      = { m := 7025615418697974, e := -51 } := by decide
  refine ⟨h, ?_, ?_⟩
  · rw [h]
    norm_num [Dbl.toRat]
  · rw [h]
    norm_num [Dbl.toRat, Nat.shiftLeft_eq, Nat.shiftRight_eq_div_pow]

/-- C12, amended (`double` is IEEE 754 binary64): for the bytes `b0`, `b1` the
chip holds at VCELL and the variant scale `k` (1 for MAX17043, 2 for MAX17044),
`getVoltage()` returns the `double` product `(n * 0.00125) * k`, each operation
rounded, where `n = (b0 << 4) + (b1 >> 4)` is the upper twelve bits of
`256 * b0 + b1`, at most 4095; the value returned is within `k / 2 ^ 50` of the
exact `n * 0.00125 * k`; bytes `[0x9C, 0x00]` give `0x1.8f5c28f5c28f6p+1` on the
MAX17043, within `1 / 2 ^ 52` of 3.12; and the MAX17044 result is exactly twice
the MAX17043 result for the same bytes. -/
theorem voltage_decode (ic : gaugeType) (w : Wire) :
    (getVoltage ic w).1
      = dmul (dmul (Dbl.ofInt (((regByte w MAX1704X_VCELL_ADDR <<< 4)
            + (regByte w (MAX1704X_VCELL_ADDR + 1) >>> 4) : ℕ) : ℤ)) DBL_0_00125)
          (Dbl.ofInt (ic.value : ℤ)) ∧
    (regByte w MAX1704X_VCELL_ADDR <<< 4) + (regByte w (MAX1704X_VCELL_ADDR + 1) >>> 4)
      = (256 * regByte w MAX1704X_VCELL_ADDR + regByte w (MAX1704X_VCELL_ADDR + 1)) / 16 ∧
    (regByte w MAX1704X_VCELL_ADDR <<< 4) + (regByte w (MAX1704X_VCELL_ADDR + 1) >>> 4)
      ≤ 4095 ∧
    gaugeType.MAX17043.value = 1 ∧ gaugeType.MAX17044.value = 2 ∧
    |(getVoltage ic w).1.toRat
        - (((regByte w MAX1704X_VCELL_ADDR <<< 4)
            + (regByte w (MAX1704X_VCELL_ADDR + 1) >>> 4) : ℕ) : ℚ)
          * 0.00125 * (ic.value : ℚ)| ≤ (ic.value : ℚ) / 2 ^ 50 ∧
    (getVoltage gaugeType.MAX17043 (chipAt MAX1704X_VCELL_ADDR 0x9C 0x00)).1
      = { m := 7025615418697974, e := -51 } ∧
    |(getVoltage gaugeType.MAX17043 (chipAt MAX1704X_VCELL_ADDR 0x9C 0x00)).1.toRat - 3.12|
      ≤ 1 / 2 ^ 52 ∧
    (getVoltage gaugeType.MAX17044 w).1.toRat
      = 2 * (getVoltage gaugeType.MAX17043 w).1.toRat := by
  have hw := voltage_word (regByte_lt w MAX1704X_VCELL_ADDR)
    (regByte_lt w (MAX1704X_VCELL_ADDR + 1))
  have hk : ic.value = 1 ∨ ic.value = 2 := by
    cases ic
    · exact Or.inl rfl
    · exact Or.inr rfl
  have key : ∀ jc : gaugeType, (getVoltage jc w).1
      = dmul (dmul (Dbl.ofInt (((regByte w MAX1704X_VCELL_ADDR <<< 4)
            + (regByte w (MAX1704X_VCELL_ADDR + 1) >>> 4) : ℕ) : ℤ)) DBL_0_00125)
          (Dbl.ofInt (jc.value : ℤ)) := by
    intro jc
    rw [getVoltage_fst, hw.1]
  have hx : (getVoltage gaugeType.MAX17043 (chipAt MAX1704X_VCELL_ADDR 0x9C 0x00)).1
      = { m := 7025615418697974, e := -51 } := by decide
  refine ⟨key ic, hw.2.1, hw.2.2, rfl, rfl, ?_, hx, ?_, ?_⟩
  · rw [key ic]
    exact voltage_error _ _ hw.2.2 hk
  · rw [hx, abs_le]
    norm_num [Dbl.toRat]
  · rw [key, key, voltage_value _ gaugeType.MAX17044.value hw.2.2 (Or.inr rfl),
      voltage_value _ gaugeType.MAX17043.value hw.2.2 (Or.inl rfl)]
    simp only [gaugeType.value]
    push_cast
    ring

/-- C13: in exact rational arithmetic, for the bytes `b0`, `b1` the chip holds at
SOC, `getSOC()` equals `b0 + b1 / 256` with no clamping: the result lies in
`[0, 256)`, is at least `b0` (so above 100 whenever `b0 > 100`, as for
`[200, 0]`), and bytes `[50, 128]` give 50.5. -/
theorem soc_decode (w : Wire) :
    (getSOC w).1
      = (regByte w MAX1704X_SOC_ADDR : ℚ) + (regByte w (MAX1704X_SOC_ADDR + 1) : ℚ) / 256 ∧
    0 ≤ (getSOC w).1 ∧ (getSOC w).1 < 256 ∧
    (regByte w MAX1704X_SOC_ADDR : ℚ) ≤ (getSOC w).1 ∧
    (getSOC (chipAt MAX1704X_SOC_ADDR 50 128)).1 = 50.5 ∧
    (getSOC (chipAt MAX1704X_SOC_ADDR 200 0)).1 = 200 := by
  have key : ∀ v : Wire, (getSOC v).1
      = (regByte v MAX1704X_SOC_ADDR : ℚ) + (regByte v (MAX1704X_SOC_ADDR + 1) : ℚ) / 256 := by
    intro v
    rw [getSOC_fst, toSigned_byte (regByte_lt v _), toSigned_byte (regByte_lt v _)]
    simp only [Int.cast_natCast]
  have h0 : (regByte w MAX1704X_SOC_ADDR : ℚ) ≤ 255 := by
    have := regByte_lt w MAX1704X_SOC_ADDR
    exact_mod_cast Nat.le_of_lt_succ this
  have h1 : (regByte w (MAX1704X_SOC_ADDR + 1) : ℚ) ≤ 255 := by
    have := regByte_lt w (MAX1704X_SOC_ADDR + 1)
    exact_mod_cast Nat.le_of_lt_succ this
  have p0 : (0 : ℚ) ≤ (regByte w MAX1704X_SOC_ADDR : ℚ) := Nat.cast_nonneg _
  have p1 : (0 : ℚ) ≤ (regByte w (MAX1704X_SOC_ADDR + 1) : ℚ) := Nat.cast_nonneg _
  refine ⟨key w, ?_, ?_, ?_, ?_, ?_⟩
  · rw [key w]; linarith
  · rw [key w]; linarith
  · rw [key w]; linarith
  · rw [key]
    have a0 : regByte (chipAt MAX1704X_SOC_ADDR 50 128) MAX1704X_SOC_ADDR = 50 := by decide
    have a1 : regByte (chipAt MAX1704X_SOC_ADDR 50 128) (MAX1704X_SOC_ADDR + 1) = 128 := by
      decide
    rw [a0, a1]
    norm_num
  · rw [key]
    have a0 : regByte (chipAt MAX1704X_SOC_ADDR 200 0) MAX1704X_SOC_ADDR = 200 := by decide
    have a1 : regByte (chipAt MAX1704X_SOC_ADDR 200 0) (MAX1704X_SOC_ADDR + 1) = 0 := by
      decide
    rw [a0, a1]
    norm_num

/-! ## Bus operations issued by each method -/

theorem setCompensation_ops (w : Wire) (comp : Nat) :
    opsSince w (setCompensation w comp).2
      = [BusOp.transmit 0x36 [0x0D] false (u8 (w.report w.log.length)),
         BusOp.request 0x36 1,
         BusOp.transmit 0x36 [0x0C, u8 comp, statusByte w] true (u8 (w.report (w.log.length + 2)))] := by
  simp [opsSince, setCompensation, getStatus, statusByte, compByte, Wire.beginTransmission, Wire.write,
    Wire.endTransmission, Wire.requestFrom, Wire.read, store, fetch, u8, MAX1704X_ADDR,
    MAX1704X_ATHRD_ADDR, MAX1704X_RCOMP_ADDR, MAX1704X_CONFIG_ADDR, MAX1704X_MODE_ADDR,
    MAX1704X_COMMAND_ADDR]

theorem setCompensation_fst (w : Wire) (comp : Nat) :
    (setCompensation w comp).1 = u8 (w.report (w.log.length + 2)) := by
  simp [setCompensation, getStatus, Wire.beginTransmission, Wire.write,
    Wire.endTransmission, Wire.requestFrom, Wire.read, store, fetch, u8, MAX1704X_ADDR,
    MAX1704X_ATHRD_ADDR, MAX1704X_RCOMP_ADDR, MAX1704X_CONFIG_ADDR, MAX1704X_MODE_ADDR,
    MAX1704X_COMMAND_ADDR]

theorem setAlertThreshold_ops (w : Wire) (thrd : Nat) :
    opsSince w (setAlertThreshold w thrd).2
      = [BusOp.transmit 0x36 [0x0C] false (u8 (w.report w.log.length)),
         BusOp.request 0x36 2,
         BusOp.transmit 0x36 [0x0C, compByte w,
           u8 (u8 (statusByte w &&& 0x80) ||| encodeThreshold (clampThreshold (u8 thrd)))] true (u8 (w.report (w.log.length + 2)))] := by
  simp [opsSince, setAlertThreshold, statusByte, compByte, Wire.beginTransmission, Wire.write,
    Wire.endTransmission, Wire.requestFrom, Wire.read, store, fetch, u8, MAX1704X_ADDR,
    MAX1704X_ATHRD_ADDR, MAX1704X_RCOMP_ADDR, MAX1704X_CONFIG_ADDR, MAX1704X_MODE_ADDR,
    MAX1704X_COMMAND_ADDR]

theorem setAlertThreshold_fst (w : Wire) (thrd : Nat) :
    (setAlertThreshold w thrd).1 = u8 (w.report (w.log.length + 2)) := by
  simp [setAlertThreshold, Wire.beginTransmission, Wire.write,
    Wire.endTransmission, Wire.requestFrom, Wire.read, store, fetch, u8, MAX1704X_ADDR,
    MAX1704X_ATHRD_ADDR, MAX1704X_RCOMP_ADDR, MAX1704X_CONFIG_ADDR, MAX1704X_MODE_ADDR,
    MAX1704X_COMMAND_ADDR]

theorem clearAlertInterrupt_ops (w : Wire) :
    opsSince w (clearAlertInterrupt w).2
      = [BusOp.transmit 0x36 [0x0C] false (u8 (w.report w.log.length)),
         BusOp.request 0x36 1,
         BusOp.transmit 0x36 [0x0D] false (u8 (w.report (w.log.length + 2))),
         BusOp.request 0x36 1,
         BusOp.transmit 0x36 [0x0C, compByte w, u8 (0xDF &&& statusByte w)] true (u8 (w.report (w.log.length + 4)))] := by
  simp [opsSince, clearAlertInterrupt, getCompensation, getStatus, statusByte, compByte, Wire.beginTransmission, Wire.write,
    Wire.endTransmission, Wire.requestFrom, Wire.read, store, fetch, u8, MAX1704X_ADDR,
    MAX1704X_ATHRD_ADDR, MAX1704X_RCOMP_ADDR, MAX1704X_CONFIG_ADDR, MAX1704X_MODE_ADDR,
    MAX1704X_COMMAND_ADDR]

theorem clearAlertInterrupt_fst (w : Wire) :
    (clearAlertInterrupt w).1 = u8 (w.report (w.log.length + 4)) := by
  simp [clearAlertInterrupt, getCompensation, getStatus, Wire.beginTransmission, Wire.write,
    Wire.endTransmission, Wire.requestFrom, Wire.read, store, fetch, u8, MAX1704X_ADDR,
    MAX1704X_ATHRD_ADDR, MAX1704X_RCOMP_ADDR, MAX1704X_CONFIG_ADDR, MAX1704X_MODE_ADDR,
    MAX1704X_COMMAND_ADDR]

theorem sleep_ops (w : Wire) :
    opsSince w (sleep w).2
      = [BusOp.transmit 0x36 [0x0C] false (u8 (w.report w.log.length)),
         BusOp.request 0x36 1,
         BusOp.transmit 0x36 [0x0D] false (u8 (w.report (w.log.length + 2))),
         BusOp.request 0x36 1,
         BusOp.transmit 0x36 [0x0C, compByte w, u8 (0x80 ||| decodeThreshold (statusByte w))] true (u8 (w.report (w.log.length + 4)))] := by
  simp [opsSince, sleep, getAlertThreshold, getCompensation, getStatus, statusByte, compByte, Wire.beginTransmission, Wire.write,
    Wire.endTransmission, Wire.requestFrom, Wire.read, store, fetch, u8, MAX1704X_ADDR,
    MAX1704X_ATHRD_ADDR, MAX1704X_RCOMP_ADDR, MAX1704X_CONFIG_ADDR, MAX1704X_MODE_ADDR,
    MAX1704X_COMMAND_ADDR]

theorem sleep_fst (w : Wire) :
    (sleep w).1 = u8 (w.report (w.log.length + 4)) := by
  simp [sleep, getAlertThreshold, getCompensation, getStatus, Wire.beginTransmission, Wire.write,
    Wire.endTransmission, Wire.requestFrom, Wire.read, store, fetch, u8, MAX1704X_ADDR,
    MAX1704X_ATHRD_ADDR, MAX1704X_RCOMP_ADDR, MAX1704X_CONFIG_ADDR, MAX1704X_MODE_ADDR,
    MAX1704X_COMMAND_ADDR]

theorem wake_ops (w : Wire) :
    opsSince w (wake w).2
      = [BusOp.transmit 0x36 [0x0C] false (u8 (w.report w.log.length)),
         BusOp.request 0x36 1,
         BusOp.transmit 0x36 [0x0D] false (u8 (w.report (w.log.length + 2))),
         BusOp.request 0x36 1,
         BusOp.transmit 0x36 [0x0C, compByte w, u8 (0x7F &&& decodeThreshold (statusByte w))] true (u8 (w.report (w.log.length + 4)))] := by
  simp [opsSince, wake, getAlertThreshold, getCompensation, getStatus, statusByte, compByte, Wire.beginTransmission, Wire.write,
    Wire.endTransmission, Wire.requestFrom, Wire.read, store, fetch, u8, MAX1704X_ADDR,
    MAX1704X_ATHRD_ADDR, MAX1704X_RCOMP_ADDR, MAX1704X_CONFIG_ADDR, MAX1704X_MODE_ADDR,
    MAX1704X_COMMAND_ADDR]

theorem wake_fst (w : Wire) :
    (wake w).1 = u8 (w.report (w.log.length + 4)) := by
  simp [wake, getAlertThreshold, getCompensation, getStatus, Wire.beginTransmission, Wire.write,
    Wire.endTransmission, Wire.requestFrom, Wire.read, store, fetch, u8, MAX1704X_ADDR,
    MAX1704X_ATHRD_ADDR, MAX1704X_RCOMP_ADDR, MAX1704X_CONFIG_ADDR, MAX1704X_MODE_ADDR,
    MAX1704X_COMMAND_ADDR]

theorem quickStart_ops (w : Wire) :
    opsSince w (quickStart w).2
      = [BusOp.transmit 0x36 [0x06, 0x40, 0x00] true (u8 (w.report w.log.length))] := by
  simp [opsSince, quickStart, statusByte, compByte, Wire.beginTransmission, Wire.write,
    Wire.endTransmission, Wire.requestFrom, Wire.read, store, fetch, u8, MAX1704X_ADDR,
    MAX1704X_ATHRD_ADDR, MAX1704X_RCOMP_ADDR, MAX1704X_CONFIG_ADDR, MAX1704X_MODE_ADDR,
    MAX1704X_COMMAND_ADDR]

theorem quickStart_fst (w : Wire) :
    (quickStart w).1 = u8 (w.report w.log.length) := by
  simp [quickStart, Wire.beginTransmission, Wire.write,
    Wire.endTransmission, Wire.requestFrom, Wire.read, store, fetch, u8, MAX1704X_ADDR,
    MAX1704X_ATHRD_ADDR, MAX1704X_RCOMP_ADDR, MAX1704X_CONFIG_ADDR, MAX1704X_MODE_ADDR,
    MAX1704X_COMMAND_ADDR]

theorem reset_ops (w : Wire) :
    opsSince w (reset w).2
      = [BusOp.transmit 0x36 [0xFE, 0x54, 0x00] true (u8 (w.report w.log.length))] := by
  simp [opsSince, reset, statusByte, compByte, Wire.beginTransmission, Wire.write,
    Wire.endTransmission, Wire.requestFrom, Wire.read, store, fetch, u8, MAX1704X_ADDR,
    MAX1704X_ATHRD_ADDR, MAX1704X_RCOMP_ADDR, MAX1704X_CONFIG_ADDR, MAX1704X_MODE_ADDR,
    MAX1704X_COMMAND_ADDR]

theorem reset_fst (w : Wire) :
    (reset w).1 = u8 (w.report w.log.length) := by
  simp [reset, Wire.beginTransmission, Wire.write,
    Wire.endTransmission, Wire.requestFrom, Wire.read, store, fetch, u8, MAX1704X_ADDR,
    MAX1704X_ATHRD_ADDR, MAX1704X_RCOMP_ADDR, MAX1704X_CONFIG_ADDR, MAX1704X_MODE_ADDR,
    MAX1704X_COMMAND_ADDR]

theorem setCompensation_log (w : Wire) (comp : Nat) :
    (setCompensation w comp).2.log = w.log ++ opsSince w (setCompensation w comp).2 := by
  simp [opsSince, setCompensation, getStatus, Wire.beginTransmission, Wire.write,
    Wire.endTransmission, Wire.requestFrom, Wire.read, store, fetch, u8, MAX1704X_ADDR,
    MAX1704X_ATHRD_ADDR, MAX1704X_RCOMP_ADDR, MAX1704X_CONFIG_ADDR, MAX1704X_MODE_ADDR,
    MAX1704X_COMMAND_ADDR]

theorem setAlertThreshold_log (w : Wire) (thrd : Nat) :
    (setAlertThreshold w thrd).2.log = w.log ++ opsSince w (setAlertThreshold w thrd).2 := by
  simp [opsSince, setAlertThreshold, Wire.beginTransmission, Wire.write,
    Wire.endTransmission, Wire.requestFrom, Wire.read, store, fetch, u8, MAX1704X_ADDR,
    MAX1704X_ATHRD_ADDR, MAX1704X_RCOMP_ADDR, MAX1704X_CONFIG_ADDR, MAX1704X_MODE_ADDR,
    MAX1704X_COMMAND_ADDR]

theorem clearAlertInterrupt_log (w : Wire) :
    (clearAlertInterrupt w).2.log = w.log ++ opsSince w (clearAlertInterrupt w).2 := by
  simp [opsSince, clearAlertInterrupt, getCompensation, getStatus, Wire.beginTransmission, Wire.write,
    Wire.endTransmission, Wire.requestFrom, Wire.read, store, fetch, u8, MAX1704X_ADDR,
    MAX1704X_ATHRD_ADDR, MAX1704X_RCOMP_ADDR, MAX1704X_CONFIG_ADDR, MAX1704X_MODE_ADDR,
    MAX1704X_COMMAND_ADDR]

theorem sleep_log (w : Wire) :
    (sleep w).2.log = w.log ++ opsSince w (sleep w).2 := by
  simp [opsSince, sleep, getAlertThreshold, getCompensation, getStatus, Wire.beginTransmission, Wire.write,
    Wire.endTransmission, Wire.requestFrom, Wire.read, store, fetch, u8, MAX1704X_ADDR,
    MAX1704X_ATHRD_ADDR, MAX1704X_RCOMP_ADDR, MAX1704X_CONFIG_ADDR, MAX1704X_MODE_ADDR,
    MAX1704X_COMMAND_ADDR]

theorem wake_log (w : Wire) :
    (wake w).2.log = w.log ++ opsSince w (wake w).2 := by
  simp [opsSince, wake, getAlertThreshold, getCompensation, getStatus, Wire.beginTransmission, Wire.write,
    Wire.endTransmission, Wire.requestFrom, Wire.read, store, fetch, u8, MAX1704X_ADDR,
    MAX1704X_ATHRD_ADDR, MAX1704X_RCOMP_ADDR, MAX1704X_CONFIG_ADDR, MAX1704X_MODE_ADDR,
    MAX1704X_COMMAND_ADDR]

theorem quickStart_log (w : Wire) :
    (quickStart w).2.log = w.log ++ opsSince w (quickStart w).2 := by
  simp [opsSince, quickStart, Wire.beginTransmission, Wire.write,
    Wire.endTransmission, Wire.requestFrom, Wire.read, store, fetch, u8, MAX1704X_ADDR,
    MAX1704X_ATHRD_ADDR, MAX1704X_RCOMP_ADDR, MAX1704X_CONFIG_ADDR, MAX1704X_MODE_ADDR,
    MAX1704X_COMMAND_ADDR]

theorem reset_log (w : Wire) :
    (reset w).2.log = w.log ++ opsSince w (reset w).2 := by
  simp [opsSince, reset, Wire.beginTransmission, Wire.write,
    Wire.endTransmission, Wire.requestFrom, Wire.read, store, fetch, u8, MAX1704X_ADDR,
    MAX1704X_ATHRD_ADDR, MAX1704X_RCOMP_ADDR, MAX1704X_CONFIG_ADDR, MAX1704X_MODE_ADDR,
    MAX1704X_COMMAND_ADDR]

/-! ## Transmission status and command writes -/

/-- C14: each of `setCompensation`, `setAlertThreshold`, `clearAlertInterrupt`,
`sleep`, `wake`, `quickStart` and `reset` appends its bus operations to the log,
among them exactly one register-write transaction, and returns exactly the
status recorded for that transaction, which is what the transport reports for
it (`report` is arbitrary, so this holds for every status code). -/
theorem status_pass_through (w : Wire) (comp thrd : Nat) :
    ((setCompensation w comp).2.log = w.log ++ opsSince w (setCompensation w comp).2 ∧
     (opsSince w (setCompensation w comp).2).filter isRegisterWrite
        = [BusOp.transmit 0x36 [0x0C, u8 comp, statusByte w] true (setCompensation w comp).1] ∧
     (setCompensation w comp).1 = u8 (w.report (w.log.length + 2))) ∧
    ((setAlertThreshold w thrd).2.log = w.log ++ opsSince w (setAlertThreshold w thrd).2 ∧
     (opsSince w (setAlertThreshold w thrd).2).filter isRegisterWrite
        = [BusOp.transmit 0x36 [0x0C, compByte w,
            u8 (u8 (statusByte w &&& 0x80) ||| encodeThreshold (clampThreshold (u8 thrd)))] true (setAlertThreshold w thrd).1] ∧
     (setAlertThreshold w thrd).1 = u8 (w.report (w.log.length + 2))) ∧
    ((clearAlertInterrupt w).2.log = w.log ++ opsSince w (clearAlertInterrupt w).2 ∧
     (opsSince w (clearAlertInterrupt w).2).filter isRegisterWrite
        = [BusOp.transmit 0x36 [0x0C, compByte w, u8 (0xDF &&& statusByte w)] true (clearAlertInterrupt w).1] ∧
     (clearAlertInterrupt w).1 = u8 (w.report (w.log.length + 4))) ∧
    ((sleep w).2.log = w.log ++ opsSince w (sleep w).2 ∧
     (opsSince w (sleep w).2).filter isRegisterWrite
        = [BusOp.transmit 0x36 [0x0C, compByte w, u8 (0x80 ||| decodeThreshold (statusByte w))] true (sleep w).1] ∧
     (sleep w).1 = u8 (w.report (w.log.length + 4))) ∧
    ((wake w).2.log = w.log ++ opsSince w (wake w).2 ∧
     (opsSince w (wake w).2).filter isRegisterWrite
        = [BusOp.transmit 0x36 [0x0C, compByte w, u8 (0x7F &&& decodeThreshold (statusByte w))] true (wake w).1] ∧
     (wake w).1 = u8 (w.report (w.log.length + 4))) ∧
    ((quickStart w).2.log = w.log ++ opsSince w (quickStart w).2 ∧
     (opsSince w (quickStart w).2).filter isRegisterWrite
        = [BusOp.transmit 0x36 [0x06, 0x40, 0x00] true (quickStart w).1] ∧
     (quickStart w).1 = u8 (w.report w.log.length)) ∧
    ((reset w).2.log = w.log ++ opsSince w (reset w).2 ∧
     (opsSince w (reset w).2).filter isRegisterWrite
        = [BusOp.transmit 0x36 [0xFE, 0x54, 0x00] true (reset w).1] ∧
     (reset w).1 = u8 (w.report w.log.length)) := by
  refine ⟨?_, ?_, ?_, ?_, ?_, ?_, ?_⟩
  · refine ⟨setCompensation_log w comp, ?_, setCompensation_fst w comp⟩
    rw [setCompensation_ops, setCompensation_fst]
    simp [isRegisterWrite]
  · refine ⟨setAlertThreshold_log w thrd, ?_, setAlertThreshold_fst w thrd⟩
    rw [setAlertThreshold_ops, setAlertThreshold_fst]
    simp [isRegisterWrite]
  · refine ⟨clearAlertInterrupt_log w, ?_, clearAlertInterrupt_fst w⟩
    rw [clearAlertInterrupt_ops, clearAlertInterrupt_fst]
    simp [isRegisterWrite]
  · refine ⟨sleep_log w, ?_, sleep_fst w⟩
    rw [sleep_ops, sleep_fst]
    simp [isRegisterWrite]
  · refine ⟨wake_log w, ?_, wake_fst w⟩
    rw [wake_ops, wake_fst]
    simp [isRegisterWrite]
  · refine ⟨quickStart_log w, ?_, quickStart_fst w⟩
    rw [quickStart_ops, quickStart_fst]
    simp [isRegisterWrite]
  · refine ⟨reset_log w, ?_, reset_fst w⟩
    rw [reset_ops, reset_fst]
    simp [isRegisterWrite]

/-- C15: `quickStart` and `reset` each issue exactly one bus operation, a write
transaction to chip address 0x36 with bytes `[0x06, 0x40, 0x00]` and
`[0xFE, 0x54, 0x00]` respectively, and no read request; the bytes held at the
CONFIG addresses 0x0C and 0x0D are not written. -/
theorem command_writes (w : Wire) :
    ((quickStart w).2.log
        = w.log ++ [BusOp.transmit 0x36 [0x06, 0x40, 0x00] true (quickStart w).1] ∧
     (opsSince w (quickStart w).2).filter isRequest = [] ∧
     ((opsSince w (quickStart w).2).filter isRegisterWrite).length = 1 ∧
     (quickStart w).2.reg 0x0C = w.reg 0x0C ∧ (quickStart w).2.reg 0x0D = w.reg 0x0D) ∧
    ((reset w).2.log
        = w.log ++ [BusOp.transmit 0x36 [0xFE, 0x54, 0x00] true (reset w).1] ∧
     (opsSince w (reset w).2).filter isRequest = [] ∧
     ((opsSince w (reset w).2).filter isRegisterWrite).length = 1 ∧
     (reset w).2.reg 0x0C = w.reg 0x0C ∧ (reset w).2.reg 0x0D = w.reg 0x0D) := by
  refine ⟨⟨?_, ?_, ?_, ?_, ?_⟩, ⟨?_, ?_, ?_, ?_, ?_⟩⟩
  · rw [quickStart_log, quickStart_ops, quickStart_fst]
  · rw [quickStart_ops]
    simp [isRequest]
  · rw [quickStart_ops]
    simp [isRegisterWrite]
  · simp [quickStart, Wire.beginTransmission, Wire.write, Wire.endTransmission, store, u8,
      MAX1704X_ADDR, MAX1704X_MODE_ADDR]
  · simp [quickStart, Wire.beginTransmission, Wire.write, Wire.endTransmission, store, u8,
      MAX1704X_ADDR, MAX1704X_MODE_ADDR]
  · rw [reset_log, reset_ops, reset_fst]
  · rw [reset_ops]
    simp [isRequest]
  · rw [reset_ops]
    simp [isRegisterWrite]
  · simp [reset, Wire.beginTransmission, Wire.write, Wire.endTransmission, store, u8,
      MAX1704X_ADDR, MAX1704X_COMMAND_ADDR]
  · simp [reset, Wire.beginTransmission, Wire.write, Wire.endTransmission, store, u8,
      MAX1704X_ADDR, MAX1704X_COMMAND_ADDR]

end LiFuelGauge
